import Mathlib

/-!
Verification of the Swiss-crime dashboard (`src/app.py`).

The script loads one table (`df`), filters it by the sidebar selections
(year range, canton, offence types), and derives a sequence of grouped
aggregations for the charts.  We embed the table as a `List Row`, the
pandas operations as pure list functions, and prove the spec's claims
about them.  Machine floats of pandas are modelled by `ℚ`, with `Option ℚ`
where pandas produces `NaN` (mean of an empty series, division of a
zero-count row by a zero group total).
-/

/-- A row of the loaded table `df`, with the columns `app.py` reads.
Column names are kept verbatim. -/
structure Row where
  Any : Int
  Canto_norm : String
  Tipus_de_Delicte : String
  Nivell_de_Resolucio : String
  Nombre_de_Delictes : Nat
  Taxa_Criminalitat_per_1000 : ℚ
  Percentatge_Casos_Resolts : ℚ
  PIB_per_Capita : ℚ
  Percentatge_Estrangers : ℚ
  Poblacio_Total : Nat
  deriving DecidableEq, Repr

/-- Lowercasing of one character, as Python's `str.lower` acts on the
character sets occurring in this dataset: ASCII `A`–`Z` and the Latin-1
accented capitals `À`–`Þ` (except the multiplication sign `×`) map down by
32 code points; everything else is left unchanged. -/
def pyLowerChar (c : Char) : Char :=
  if ('A' ≤ c ∧ c ≤ 'Z') ∨ ('À' ≤ c ∧ c ≤ 'Þ' ∧ c ≠ '×') then
    Char.ofNat (c.toNat + 32)
  else c

/-- Python `s.lower()` on the embedded character list. -/
def pyLower (s : List Char) : List Char := s.map pyLowerChar

/-- Boolean test that `pre` is a prefix of `l` (helper for substring). -/
def isPreL : List Char → List Char → Bool
  | [], _ => true
  | _ :: _, [] => false
  | a :: as, b :: bs => a == b && isPreL as bs

/-- Python's `needle in hay` substring test on character lists. -/
def containsSub (hay needle : List Char) : Bool :=
  match hay with
  | [] => isPreL needle []
  | _ :: t => isPreL needle hay || containsSub t needle

/-- The categorizer `categoritza_delicte` of `app.py` lines 179–190:
lowercase the label, then an `if/elif` chain of substring tests over four
keyword groups, first match wins, otherwise `Altres`. -/
def categoritza_delicte (d : String) : String :=
  let d_lower := pyLower d.data
  if containsSub d_lower "vol".data || containsSub d_lower "détournement".data ||
      containsSub d_lower "dommages".data then
    "Robatoris / Détournements / Danys"
  else if containsSub d_lower "violence".data || containsSub d_lower "lésions".data ||
      containsSub d_lower "meurtre".data then
    "Violència / Homicidi"
  else if containsSub d_lower "fraude".data || containsSub d_lower "escroquerie".data ||
      containsSub d_lower "corruption".data then
    "Frau / Corrupció"
  else if containsSub d_lower "sexuel".data || containsSub d_lower "inceste".data ||
      containsSub d_lower "prostitution".data then
    "Infraccions sexuals"
  else
    "Altres"

/-- The second, textually identical definition of `categoritza_delicte`
(`app.py` lines 239–250), which shadows the first and is the one applied at
line 253 and used by sections 5–10. -/
def categoritza_delicte_v2 (d : String) : String :=
  let d_lower := pyLower d.data
  if containsSub d_lower "vol".data || containsSub d_lower "détournement".data ||
      containsSub d_lower "dommages".data then
    "Robatoris / Détournements / Danys"
  else if containsSub d_lower "violence".data || containsSub d_lower "lésions".data ||
      containsSub d_lower "meurtre".data then
    "Violència / Homicidi"
  else if containsSub d_lower "fraude".data || containsSub d_lower "escroquerie".data ||
      containsSub d_lower "corruption".data then
    "Frau / Corrupció"
  else if containsSub d_lower "sexuel".data || containsSub d_lower "inceste".data ||
      containsSub d_lower "prostitution".data then
    "Infraccions sexuals"
  else
    "Altres"

/-- The filter pipeline of `app.py` lines 54–57:
`df[df['Any'].between(y1, y2)]`, then (when the canton selector is not the
sentinel `"Tots"`) `df_filtered[df_filtered['Canto_norm'] == canton]`, then
`df_filtered[df_filtered['Tipus_de_Delicte'].isin(sel)]`. -/
def df_filtered (df : List Row) (y1 y2 : Int) (canton : String) (sel : List String) :
    List Row :=
  let d1 := df.filter (fun r => decide (y1 ≤ r.Any) && decide (r.Any ≤ y2))
  let d2 := if canton ≠ "Tots" then d1.filter (fun r => r.Canto_norm == canton) else d1
  d2.filter (fun r => sel.contains r.Tipus_de_Delicte)

/-- KPI `total_crimes = df_filtered['Nombre_de_Delictes'].sum()` (line 63). -/
def total_crimes (dff : List Row) : Nat :=
  (dff.map Row.Nombre_de_Delictes).sum

/-- Pandas `Series.mean`: `NaN` (here `none`) on an empty series. -/
def seriesMean (l : List ℚ) : Option ℚ :=
  if l.length = 0 then none else some (l.sum / l.length)

/-- KPI `avg_crime_rate = df_filtered['Taxa_Criminalitat_per_1000'].mean()`
(line 64). -/
def avg_crime_rate (dff : List Row) : Option ℚ :=
  seriesMean (dff.map Row.Taxa_Criminalitat_per_1000)

/-- KPI `avg_resolution = df_filtered['Percentatge_Casos_Resolts'].mean()`
(line 65). -/
def avg_resolution (dff : List Row) : Option ℚ :=
  seriesMean (dff.map Row.Percentatge_Casos_Resolts)

/-- Keys of a pandas `groupby`: the distinct values of the key function on
the rows.  (Pandas sorts group keys; we keep first-occurrence order, which
the claims — all about membership and within-group values — do not see.) -/
def groupKeys {α κ : Type} [DecidableEq κ] (key : α → κ) (l : List α) : List κ :=
  (l.map key).dedup

/-- The rows of group `k` under a `groupby`. -/
def groupRows {α κ : Type} [DecidableEq κ] (key : α → κ) (l : List α) (k : κ) :
    List α :=
  l.filter (fun a => decide (key a = k))

/-- Pandas `l.groupby(key).agg(agg).reset_index()`: one output row per
distinct key, carrying the reduction of that key's rows. -/
def groupAgg {α κ β : Type} [DecidableEq κ] (key : α → κ) (agg : List α → β)
    (l : List α) : List (κ × β) :=
  (groupKeys key l).map (fun k => (k, agg (groupRows key l k)))

/-- Sum of the `Nombre_de_Delictes` column of a group (`'sum'` reduction). -/
def sumDelictes (rows : List Row) : Nat :=
  (rows.map Row.Nombre_de_Delictes).sum

/-- Pandas `groupby(key)[col].transform(lambda x: 100 * x / x.sum())`
(lines 207 and 276): every row is kept and annotated with its percentage of
its group's total.  A zero group total gives pandas `0/0 = NaN` on each of
the group's rows (all counts are then 0); we model that `NaN` as `none`. -/
def transformPct {α κ : Type} [DecidableEq κ] (key : α → κ) (val : α → Nat)
    (l : List α) : List (α × Option ℚ) :=
  l.map (fun a =>
    let tot := ((l.filter (fun b => decide (key b = key a))).map val).sum
    (a, if tot = 0 then none else some (100 * (val a : ℚ) / (tot : ℚ))))

/-- Line 169: `df_filtered.groupby(['Tipus_de_Delicte', 'Nivell_de_Resolucio'])
['Nombre_de_Delictes'].sum().reset_index()`. -/
def stacked_data (dff : List Row) : List ((String × String) × Nat) :=
  groupAgg (fun r => (r.Tipus_de_Delicte, r.Nivell_de_Resolucio)) sumDelictes dff

/-- A row of `stacked_data` after the `Categorie` column is added
(lines 193/199: `stacked_data['Tipus_de_Delicte'].apply(categoritza_delicte)`). -/
structure SRow where
  Tipus_de_Delicte : String
  Nivell_de_Resolucio : String
  Nombre_de_Delictes : Nat
  Categorie : String
  deriving DecidableEq, Repr

/-- `stacked_data` with its derived `Categorie` column. -/
def stacked_data_with_cat (dff : List Row) : List SRow :=
  (stacked_data dff).map (fun e =>
    ⟨e.1.1, e.1.2, e.2, categoritza_delicte e.1.1⟩)

/-- Lines 202–204: `stacked_data.groupby(['Categorie', 'Nivell_de_Resolucio'])
['Nombre_de_Delictes'].sum().reset_index()`. -/
def stacked_data_cat (dff : List Row) : List ((String × String) × Nat) :=
  groupAgg (fun s => (s.Categorie, s.Nivell_de_Resolucio))
    (fun rows => (rows.map SRow.Nombre_de_Delictes).sum)
    (stacked_data_with_cat dff)

/-- Line 207: the `Percentatge` column of `stacked_data_cat`, percentage of
each `(Categorie, Nivell)` row within its `Categorie` group. -/
def stacked_data_cat_pct (dff : List Row) :
    List (((String × String) × Nat) × Option ℚ) :=
  transformPct (fun e => e.1.1) (fun e => e.2) (stacked_data_cat dff)

/-- Lines 210–212: the rows actually carried into the stacked bar chart,
after dropping `'Total de casos'`. -/
def stacked_carried (dff : List Row) :
    List (((String × String) × Nat) × Option ℚ) :=
  (stacked_data_cat_pct dff).filter (fun e => e.1.1.2 != "Total de casos")

/-- Line 253: `df_filtered['Categorie'] =
df_filtered['Tipus_de_Delicte'].apply(categoritza_delicte)` uses the second
(shadowing) definition of the categorizer; from here on each row carries
this derived category. -/
def rowCategorie (r : Row) : String := categoritza_delicte_v2 r.Tipus_de_Delicte

/-- Line 274: `df_filtered[df_filtered['Nivell_de_Resolucio'] != 'Total de casos']`. -/
def resolution_data (dff : List Row) : List Row :=
  dff.filter (fun r => r.Nivell_de_Resolucio != "Total de casos")

/-- Line 275: `resolution_data.groupby(['Any','Categorie','Nivell_de_Resolucio'])
['Nombre_de_Delictes'].sum().reset_index()`. -/
def resolution_pct_base (dff : List Row) : List ((Int × String × String) × Nat) :=
  groupAgg (fun r => (r.Any, rowCategorie r, r.Nivell_de_Resolucio)) sumDelictes
    (resolution_data dff)

/-- Line 276: the `Percentatge` column of `resolution_pct`, percentage of
each row within its `(Any, Categorie)` group. -/
def resolution_pct (dff : List Row) :
    List (((Int × String × String) × Nat) × Option ℚ) :=
  transformPct (fun e => (e.1.1, e.1.2.1)) (fun e => e.2) (resolution_pct_base dff)

/-- Lines 78–81: `df_filtered.groupby(['Canto_norm', 'Any']).agg({'Taxa...':
'mean', 'Nombre_de_Delictes': 'sum'})`, feeding the map and the per-canton
time series. -/
def map_data (dff : List Row) : List ((String × Int) × (Option ℚ × Nat)) :=
  groupAgg (fun r => (r.Canto_norm, r.Any))
    (fun rows => (seriesMean (rows.map Row.Taxa_Criminalitat_per_1000),
                  sumDelictes rows))
    dff

/-- Lines 124–126: `df_filtered[df_filtered['Nivell_de_Resolucio'] ==
'Total de casos']`, the base of the scatter aggregation. -/
def df_scatter (dff : List Row) : List Row :=
  dff.filter (fun r => r.Nivell_de_Resolucio == "Total de casos")

/-- Line 255: `df_filtered.groupby(['Any', 'Categorie'])['Nombre_de_Delictes']
.sum().reset_index()`. -/
def temporal_data (dff : List Row) : List ((Int × String) × Nat) :=
  groupAgg (fun r => (r.Any, rowCategorie r)) sumDelictes dff

/-- Lines 297–298: `df_filtered[df_filtered['Canto_norm'] != 'Switzerland']
.groupby(['Canto_norm', 'Categorie'])['Nombre_de_Delictes'].sum().reset_index()`. -/
def cantons_cat (dff : List Row) : List ((String × String) × Nat) :=
  groupAgg (fun r => (r.Canto_norm, rowCategorie r)) sumDelictes
    (dff.filter (fun r => r.Canto_norm != "Switzerland"))

/-- Lines 323–328: the per-canton aggregate whose pairwise correlations make
the heatmap: `df_filtered.groupby('Canto_norm').agg({...})`. -/
def corr_base (dff : List Row) : List (String × (Nat × Option ℚ × Option ℚ × Option ℚ)) :=
  groupAgg Row.Canto_norm
    (fun rows => (sumDelictes rows,
                  seriesMean (rows.map Row.PIB_per_Capita),
                  seriesMean (rows.map Row.Percentatge_Estrangers),
                  seriesMean (rows.map (fun r => ((r.Poblacio_Total : ℚ))))))
    dff

/-!
Object-store model for the mutation claim.  Pandas DataFrame objects live in
a heap and variables hold references to them.  Boolean-mask indexing
(`df[mask]`) returns a fresh copy — a new object — while column assignment
(`df_filtered['Categorie'] = ...`, line 253) mutates in place the object the
variable refers to.  We replay lines 54–57 and line 253 over this store and
ask what the object `df` refers to looks like afterwards.
-/

/-- A stored row: the loaded columns plus the optional derived `Categorie`
column (absent until line 253 adds it). -/
structure CRow where
  base : Row
  Categorie : Option String
  deriving DecidableEq, Repr

/-- A heap-allocated DataFrame object. -/
structure Table where
  rows : List CRow
  deriving DecidableEq, Repr

/-- Boolean-mask indexing: builds a fresh table holding the passing rows. -/
def maskFilter (t : Table) (p : CRow → Bool) : Table :=
  ⟨t.rows.filter p⟩

/-- Line 253 as an object update: the `Categorie` column assignment applied
to one table. -/
def assignCategorie (t : Table) : Table :=
  ⟨t.rows.map (fun c => ⟨c.base, some (categoritza_delicte_v2 c.base.Tipus_de_Delicte)⟩)⟩

/-- The variable environment after the replay: the heap of objects and the
references held by `df` and `df_filtered`. -/
structure PState where
  heap : List Table
  dfRef : Nat
  dfFilteredRef : Nat
  deriving Repr

/-- Replay of lines 54–57 and 253 over the object store: each mask filter
allocates a fresh object that `df_filtered` is rebound to, and line 253
updates in place the object `df_filtered` refers to. -/
def runFilterAndCategorize (df : Table) (y1 y2 : Int) (canton : String)
    (sel : List String) : PState :=
  let t1 := maskFilter df (fun c => decide (y1 ≤ c.base.Any) && decide (c.base.Any ≤ y2))
  let h1 : List Table := [df, t1]
  let s2 : List Table × Table :=
    if canton ≠ "Tots" then
      let t2 := maskFilter t1 (fun c => c.base.Canto_norm == canton)
      (h1 ++ [t2], t2)
    else (h1, t1)
  let t3 := maskFilter s2.2 (fun c => sel.contains c.base.Tipus_de_Delicte)
  let h3 := s2.1 ++ [t3]
  let r3 := s2.1.length
  ⟨h3.set r3 (assignCategorie t3), 0, r3⟩

/-!  Helper lemmas shared by the claim theorems. -/

/-- The combined predicate the three sequential filters of lines 54–57
amount to. -/
def fullFilterPred (y1 y2 : Int) (canton : String) (sel : List String)
    (r : Row) : Bool :=
  (decide (y1 ≤ r.Any) && decide (r.Any ≤ y2)) &&
    ((canton == "Tots") || r.Canto_norm == canton) &&
    sel.contains r.Tipus_de_Delicte

theorem df_filtered_eq_filter (df : List Row) (y1 y2 : Int) (canton : String)
    (sel : List String) :
    df_filtered df y1 y2 canton sel = df.filter (fullFilterPred y1 y2 canton sel) := by
  unfold df_filtered fullFilterPred
  dsimp only
  by_cases h : canton = "Tots"
  · subst h
    rw [if_neg (by simp), List.filter_filter]
    refine List.filter_congr ?_
    intro r _
    cases h1 : decide (y1 ≤ r.Any) <;> cases h2 : decide (r.Any ≤ y2) <;>
      cases h4 : sel.contains r.Tipus_de_Delicte <;> simp [h1, h2, h4]
  · rw [if_pos h, List.filter_filter, List.filter_filter]
    refine List.filter_congr ?_
    intro r _
    have hc : (canton == "Tots") = false := beq_eq_false_iff_ne.mpr h
    cases h1 : decide (y1 ≤ r.Any) <;> cases h2 : decide (r.Any ≤ y2) <;>
      cases h3 : r.Canto_norm == canton <;>
      cases h4 : sel.contains r.Tipus_de_Delicte <;> simp [h1, h2, h3, h4, hc]

/-! Concrete example tables used by the witnesses. -/

/-- Example row: Zurich 2015. -/
def rowZ : Row :=
  ⟨2015, "Zuric", "Vol simple", "Total de casos", 5, 2, 40, 80000, 25, 1500000⟩

/-- Example row: Bern 2014. -/
def rowB : Row :=
  ⟨2014, "Bern", "Escroquerie", "Resolts", 3, 1, 50, 70000, 20, 1000000⟩

/-- Example loaded table. -/
def dfEx : List Row := [rowZ, rowB]

/-- C2: for every year-range selection `[a,b]` with `a ≤ b`, every canton
selection (sentinel `"Tots"` or a specific canton) and every offence-type
subset, the filtered view is exactly the rows of the loaded table whose
year is in `[a,b]`, whose canton matches (any canton under the sentinel)
and whose offence type is in the subset. -/
theorem filtered_view_exact (df : List Row) (y1 y2 : Int) (canton : String)
    (sel : List String) (hy : y1 ≤ y2) :
    df_filtered df y1 y2 canton sel = df.filter (fullFilterPred y1 y2 canton sel) ∧
    ∀ r : Row, r ∈ df_filtered df y1 y2 canton sel ↔
      r ∈ df ∧ (y1 ≤ r.Any ∧ r.Any ≤ y2) ∧
        (canton = "Tots" ∨ r.Canto_norm = canton) ∧ r.Tipus_de_Delicte ∈ sel := by
  refine ⟨df_filtered_eq_filter df y1 y2 canton sel, ?_⟩
  intro r
  rw [df_filtered_eq_filter]
  simp [List.mem_filter, fullFilterPred, and_assoc]

/-- Witness for C2 at a concrete table and selection. -/
theorem filtered_view_exact_witness :
    (2014 : Int) ≤ 2015 ∧
      (df_filtered dfEx 2014 2015 "Zuric" ["Vol simple", "Escroquerie"] =
          dfEx.filter (fullFilterPred 2014 2015 "Zuric" ["Vol simple", "Escroquerie"]) ∧
        ∀ r : Row, r ∈ df_filtered dfEx 2014 2015 "Zuric" ["Vol simple", "Escroquerie"] ↔
          r ∈ dfEx ∧ ((2014 : Int) ≤ r.Any ∧ r.Any ≤ 2015) ∧
            ("Zuric" = "Tots" ∨ r.Canto_norm = "Zuric") ∧
            r.Tipus_de_Delicte ∈ ["Vol simple", "Escroquerie"]) :=
  ⟨by decide,
   filtered_view_exact dfEx 2014 2015 "Zuric" ["Vol simple", "Escroquerie"] (by decide)⟩

/-- C3: the KPI `total_crimes` is the sum of `Nombre_de_Delictes` over
exactly the rows passing the three filters. -/
theorem kpi_total_crimes_exact (df : List Row) (y1 y2 : Int) (canton : String)
    (sel : List String) :
    total_crimes (df_filtered df y1 y2 canton sel) =
      ((df.filter (fullFilterPred y1 y2 canton sel)).map Row.Nombre_de_Delictes).sum := by
  rw [total_crimes, df_filtered_eq_filter]

/-- C7: an empty offence-type selection leaves zero rows, the total-crimes
KPI is 0, and the two mean KPIs are the NaN marker — all three are defined
(no exception). -/
theorem empty_offence_selection (df : List Row) (y1 y2 : Int) (canton : String) :
    df_filtered df y1 y2 canton [] = [] ∧
    total_crimes (df_filtered df y1 y2 canton []) = 0 ∧
    avg_crime_rate (df_filtered df y1 y2 canton []) = none ∧
    avg_resolution (df_filtered df y1 y2 canton []) = none := by
  have h : df_filtered df y1 y2 canton [] = [] := by
    unfold df_filtered
    dsimp only
    simp [List.contains_nil]
  refine ⟨h, ?_, ?_, ?_⟩ <;> rw [h] <;> rfl

/-- C9: the two textually duplicated definitions of the categorizer
(lines 179–190 and 239–250) are extensionally equal. -/
theorem categoritza_duplicates_agree :
    ∀ d : String, categoritza_delicte d = categoritza_delicte_v2 d :=
  fun _ => rfl

/-- Condition of the first `if` of the categorizer (the Robberies/Damages
keyword group), exactly as written at line 181. -/
def grup1 (d : String) : Bool :=
  containsSub (pyLower d.data) "vol".data || containsSub (pyLower d.data) "détournement".data ||
    containsSub (pyLower d.data) "dommages".data

/-- Condition of the second `elif` (Violence/Homicide, line 183). -/
def grup2 (d : String) : Bool :=
  containsSub (pyLower d.data) "violence".data || containsSub (pyLower d.data) "lésions".data ||
    containsSub (pyLower d.data) "meurtre".data

/-- Condition of the third `elif` (Fraud/Corruption, line 185). -/
def grup3 (d : String) : Bool :=
  containsSub (pyLower d.data) "fraude".data || containsSub (pyLower d.data) "escroquerie".data ||
    containsSub (pyLower d.data) "corruption".data

/-- Condition of the fourth `elif` (Sexual offences, line 187). -/
def grup4 (d : String) : Bool :=
  containsSub (pyLower d.data) "sexuel".data || containsSub (pyLower d.data) "inceste".data ||
    containsSub (pyLower d.data) "prostitution".data

/-- C4: the categorizer is total and deterministic — every label maps to
exactly one of the five categories, and applying it twice to the same label
gives the same category. -/
theorem categoritza_total_deterministic (d : String) :
    categoritza_delicte d ∈ ["Robatoris / Détournements / Danys", "Violència / Homicidi",
      "Frau / Corrupció", "Infraccions sexuals", "Altres"] ∧
    categoritza_delicte d = categoritza_delicte d := by
  constructor
  · unfold categoritza_delicte
    dsimp only
    split_ifs <;> simp
  · rfl

/-- C5: the categorizer lowercases the label and tests the four keyword
groups in the fixed order Robberies/Damages, Violence/Homicide,
Fraud/Corruption, Sexual offences; the first matching group wins even when
a later group also matches, and a label matching no group maps to
`Altres`. -/
theorem categoritza_first_match (d : String) :
    (grup1 d = true → categoritza_delicte d = "Robatoris / Détournements / Danys") ∧
    (grup1 d = false → grup2 d = true → categoritza_delicte d = "Violència / Homicidi") ∧
    (grup1 d = false → grup2 d = false → grup3 d = true →
      categoritza_delicte d = "Frau / Corrupció") ∧
    (grup1 d = false → grup2 d = false → grup3 d = false → grup4 d = true →
      categoritza_delicte d = "Infraccions sexuals") ∧
    (grup1 d = false → grup2 d = false → grup3 d = false → grup4 d = false →
      categoritza_delicte d = "Altres") := by
  unfold grup1 grup2 grup3 grup4 categoritza_delicte
  dsimp only
  refine ⟨?_, ?_, ?_, ?_, ?_⟩ <;> intros <;> simp_all

/-- Witness for C5: five concrete labels, one per branch; the first label
contains keywords of both the first and the second group and lands in the
first. -/
theorem categoritza_first_match_witness :
    (grup1 "Vol avec violence" = true ∧ grup2 "Vol avec violence" = true ∧
      categoritza_delicte "Vol avec violence" = "Robatoris / Détournements / Danys") ∧
    (grup1 "Lésions corporelles" = false ∧ grup2 "Lésions corporelles" = true ∧
      categoritza_delicte "Lésions corporelles" = "Violència / Homicidi") ∧
    categoritza_delicte "Escroquerie au crédit" = "Frau / Corrupció" ∧
    categoritza_delicte "Contrainte sexuelle" = "Infraccions sexuals" ∧
    categoritza_delicte "Autres infractions" = "Altres" :=
  ⟨⟨by decide, by decide, (categoritza_first_match "Vol avec violence").1 (by decide)⟩,
   ⟨by decide, by decide,
    (categoritza_first_match "Lésions corporelles").2.1 (by decide) (by decide)⟩,
   (categoritza_first_match "Escroquerie au crédit").2.2.1 (by decide) (by decide) (by decide),
   (categoritza_first_match "Contrainte sexuelle").2.2.2.1 (by decide) (by decide)
     (by decide) (by decide),
   (categoritza_first_match "Autres infractions").2.2.2.2 (by decide) (by decide)
     (by decide) (by decide)⟩

theorem transformPct_filter_group {α κ : Type} [DecidableEq κ] (key : α → κ)
    (val : α → Nat) (l : List α) (k : κ) :
    (transformPct key val l).filter (fun e => decide (key e.1 = k)) =
      (l.filter (fun a => decide (key a = k))).map (fun a =>
        (a, if ((l.filter (fun b => decide (key b = k))).map val).sum = 0 then none
            else some (100 * (val a : ℚ) /
              (((l.filter (fun b => decide (key b = k))).map val).sum : ℚ)))) := by
  unfold transformPct
  rw [List.filter_map]
  refine List.map_congr_left ?_
  intro a ha
  have hk : key a = k := by
    have := (List.mem_filter.mp ha).2
    simpa using this
  have hfl : l.filter (fun b => decide (key b = key a)) =
      l.filter (fun b => decide (key b = k)) := by
    refine List.filter_congr ?_
    intro b _
    rw [hk]
  dsimp only
  rw [hfl]

theorem sum_pct_eq_100 {α : Type} (val : α → Nat) (g : List α) (T : Nat)
    (hT : T ≠ 0) (hsum : (g.map val).sum = T) :
    ((g.map (fun a => 100 * (val a : ℚ) / (T : ℚ)))).sum = 100 := by
  have hTQ : (T : ℚ) ≠ 0 := Nat.cast_ne_zero.mpr hT
  have h1 : (fun a => 100 * (val a : ℚ) / (T : ℚ)) =
      fun a => (100 / (T : ℚ)) * (val a : ℚ) := by
    funext a
    ring
  rw [h1, List.sum_map_mul_left]
  have h2 : ((g.map (fun a => ((val a : ℚ)))).sum) = ((T : ℚ)) := by
    rw [← hsum, Nat.cast_list_sum, List.map_map]
    rfl
  rw [h2, div_mul_cancel₀ _ hTQ]

theorem transformPct_group_sum {α κ : Type} [DecidableEq κ] (key : α → κ)
    (val : α → Nat) (l : List α) (k : κ) :
    (((l.filter (fun b => decide (key b = k))).map val).sum ≠ 0 →
      ((((transformPct key val l).filter (fun e => decide (key e.1 = k))).map
          (fun e => e.2)).filterMap id).sum = 100 ∧
      ∀ o ∈ ((transformPct key val l).filter (fun e => decide (key e.1 = k))).map
          (fun e => e.2), ∃ q : ℚ, o = some q) ∧
    (((l.filter (fun b => decide (key b = k))).map val).sum = 0 →
      ∀ o ∈ ((transformPct key val l).filter (fun e => decide (key e.1 = k))).map
          (fun e => e.2), o = none) := by
  constructor
  · intro hT
    rw [transformPct_filter_group]
    constructor
    · simp only [if_neg hT, List.map_map]
      have hcomp : ((fun e : α × Option ℚ => e.2) ∘ (fun a =>
          ((a, some (100 * (val a : ℚ) /
            (((l.filter (fun b => decide (key b = k))).map val).sum : ℚ))) : α × Option ℚ))) =
          fun a => some (100 * (val a : ℚ) /
            (((l.filter (fun b => decide (key b = k))).map val).sum : ℚ)) := rfl
      rw [hcomp]
      have hfm := congrFun (List.filterMap_eq_map (fun a =>
          (100 * (val a : ℚ) /
            (((l.filter (fun b => decide (key b = k))).map val).sum : ℚ))))
          (l.filter (fun b => decide (key b = k)))
      rw [List.filterMap_map]
      rw [show (id ∘ fun a => some (100 * (val a : ℚ) /
            (((l.filter (fun b => decide (key b = k))).map val).sum : ℚ))) =
          (some ∘ fun a => (100 * (val a : ℚ) /
            (((l.filter (fun b => decide (key b = k))).map val).sum : ℚ))) from rfl]
      rw [hfm]
      exact sum_pct_eq_100 val _ _ hT rfl
    · intro o ho
      simp only [if_neg hT, List.map_map] at ho
      obtain ⟨a, _, rfl⟩ := List.mem_map.mp ho
      exact ⟨_, rfl⟩
  · intro hT o ho
    rw [transformPct_filter_group] at ho
    simp only [if_pos hT, List.map_map] at ho
    obtain ⟨a, _, rfl⟩ := List.mem_map.mp ho
    rfl

theorem transformPct_entry {α κ : Type} [DecidableEq κ] (key : α → κ)
    (val : α → Nat) (l : List α) :
    ∀ e ∈ transformPct key val l,
      (((l.filter (fun b => decide (key b = key e.1))).map val).sum = 0 → e.2 = none) ∧
      (((l.filter (fun b => decide (key b = key e.1))).map val).sum ≠ 0 →
        ∃ q : ℚ, e.2 = some q) := by
  intro e he
  unfold transformPct at he
  obtain ⟨a, _, rfl⟩ := List.mem_map.mp he
  dsimp only
  constructor
  · intro h
    rw [if_pos h]
  · intro h
    rw [if_neg h]
    exact ⟨_, rfl⟩

/-- Total crime count of the `Categorie` group `cat` of `stacked_data_cat`
(the denominator of line 207's percentage). -/
def stackedGroupTotal (dff : List Row) (cat : String) : Nat :=
  (((stacked_data_cat dff).filter (fun e => decide (e.1.1 = cat))).map (fun e => e.2)).sum

/-- The `Percentatge` values of one `Categorie` group of `stacked_data_cat`
at the moment line 207 computes them (before line 210's row removal). -/
def stackedPcts (dff : List Row) (cat : String) : List (Option ℚ) :=
  ((stacked_data_cat_pct dff).filter (fun e => decide (e.1.1.1 = cat))).map (fun e => e.2)

/-- Total crime count of a `(Any, Categorie)` group of `resolution_pct`
(the denominator of line 276's percentage). -/
def resGroupTotal (dff : List Row) (y : Int) (cat : String) : Nat :=
  (((resolution_pct_base dff).filter
      (fun e => decide ((e.1.1, e.1.2.1) = (y, cat)))).map (fun e => e.2)).sum

/-- The `Percentatge` values of one `(Any, Categorie)` group of
`resolution_pct`. -/
def resPcts (dff : List Row) (y : Int) (cat : String) : List (Option ℚ) :=
  ((resolution_pct dff).filter
      (fun e => decide ((e.1.1.1, e.1.1.2.1) = (y, cat)))).map (fun e => e.2)

/-- The `Resolts` sibling of `rowZ` (same canton, year and offence type). -/
def rowZr : Row :=
  ⟨2015, "Zuric", "Vol simple", "Resolts", 5, 2, 40, 80000, 25, 1500000⟩

/-- Example filtered view whose single category group has a nonzero total. -/
def dffW : List Row := [rowZ, rowZr]

/-- Example filtered view with one zero-count row, giving a zero group
total in both percentage computations. -/
def dffZ : List Row :=
  [⟨2015, "Bern", "Autres infractions", "Resolts", 0, 1, 50, 70000, 20, 1000000⟩]

/-- C1 (amended): within every group of each percentage-of-group
computation, at the moment the percentages are computed (line 207 for the
category shares, line 276 for the resolution-level shares), the values sum
to exactly 100 whenever the group's total crime count is nonzero, and are
all the NaN sentinel when the group total is zero.  (The original claim's
extension to the values carried into the stacked bar chart after line 210's
row removal is false — see the counterexample.) -/
theorem pct_groups_sum_100 (dff : List Row) (cat : String) (y : Int) :
    (stackedGroupTotal dff cat ≠ 0 →
      ((stackedPcts dff cat).filterMap id).sum = 100 ∧
      ∀ o ∈ stackedPcts dff cat, ∃ q : ℚ, o = some q) ∧
    (stackedGroupTotal dff cat = 0 → ∀ o ∈ stackedPcts dff cat, o = none) ∧
    (resGroupTotal dff y cat ≠ 0 →
      ((resPcts dff y cat).filterMap id).sum = 100 ∧
      ∀ o ∈ resPcts dff y cat, ∃ q : ℚ, o = some q) ∧
    (resGroupTotal dff y cat = 0 → ∀ o ∈ resPcts dff y cat, o = none) := by
  refine ⟨?_, ?_, ?_, ?_⟩
  · exact (transformPct_group_sum (fun e => e.1.1) (fun e => e.2)
      (stacked_data_cat dff) cat).1
  · exact (transformPct_group_sum (fun e => e.1.1) (fun e => e.2)
      (stacked_data_cat dff) cat).2
  · exact (transformPct_group_sum (fun e => (e.1.1, e.1.2.1)) (fun e => e.2)
      (resolution_pct_base dff) (y, cat)).1
  · exact (transformPct_group_sum (fun e => (e.1.1, e.1.2.1)) (fun e => e.2)
      (resolution_pct_base dff) (y, cat)).2

/-- Witness for C1 (amended): a concrete nonzero-total group whose
percentages sum to 100 and a concrete zero-total group whose percentages
are all the NaN sentinel. -/
theorem pct_groups_sum_100_witness :
    stackedGroupTotal dffW "Robatoris / Détournements / Danys" ≠ 0 ∧
    ((stackedPcts dffW "Robatoris / Détournements / Danys").filterMap id).sum = 100 ∧
    resGroupTotal dffZ 2015 "Altres" = 0 ∧
    ∀ o ∈ resPcts dffZ 2015 "Altres", o = none :=
  ⟨by decide,
   ((pct_groups_sum_100 dffW "Robatoris / Détournements / Danys" 0).1 (by decide)).1,
   by decide,
   (pct_groups_sum_100 dffZ "Altres" 2015).2.2.2 (by decide)⟩

/-- Counterexample to C1 as stated: in `dffW` the single category group has
total 10 (nonzero), yet the percentages carried into the stacked bar chart
after line 210 removes the `'Total de casos'` row sum to 50, not 100. -/
theorem stacked_carried_pct_counterexample :
    stackedGroupTotal dffW "Robatoris / Détournements / Danys" ≠ 0 ∧
    ((((stacked_carried dffW).filter
        (fun e => decide (e.1.1.1 = "Robatoris / Détournements / Danys"))).map
          (fun e => e.2)).filterMap id).sum = 50 ∧
    (50 : ℚ) ≠ 100 := by
  refine ⟨by decide, ?_, by norm_num⟩
  have h : (((stacked_carried dffW).filter
      (fun e => decide (e.1.1.1 = "Robatoris / Détournements / Danys"))).map
        (fun e => e.2)).filterMap id = [100 * ((5 : Nat) : ℚ) / ((10 : Nat) : ℚ)] := rfl
  rw [h]
  norm_num

/-- C6: the percentage-of-group computations are total — each row of each
percentage table gets a defined value, the NaN sentinel exactly when its
group's total is zero and a real percentage otherwise; no division error
is possible. -/
theorem pct_zero_total_never_raises (dff : List Row) :
    (∀ e ∈ stacked_data_cat_pct dff,
      (stackedGroupTotal dff e.1.1.1 = 0 → e.2 = none) ∧
      (stackedGroupTotal dff e.1.1.1 ≠ 0 → ∃ q : ℚ, e.2 = some q)) ∧
    (∀ e ∈ resolution_pct dff,
      (resGroupTotal dff e.1.1.1 e.1.1.2.1 = 0 → e.2 = none) ∧
      (resGroupTotal dff e.1.1.1 e.1.1.2.1 ≠ 0 → ∃ q : ℚ, e.2 = some q)) := by
  constructor
  · intro e he
    have he' : e ∈ transformPct (fun x : (String × String) × Nat => x.1.1)
        (fun x => x.2) (stacked_data_cat dff) := he
    exact transformPct_entry (fun x : (String × String) × Nat => x.1.1)
      (fun x => x.2) (stacked_data_cat dff) e he'
  · intro e he
    have he' : e ∈ transformPct (fun x : (Int × String × String) × Nat => (x.1.1, x.1.2.1))
        (fun x => x.2) (resolution_pct_base dff) := he
    exact transformPct_entry (fun x : (Int × String × String) × Nat => (x.1.1, x.1.2.1))
      (fun x => x.2) (resolution_pct_base dff) e he'

/-- Witness for C6: a concrete zero-total group row resolving to the NaN
sentinel rather than an error. -/
theorem pct_zero_total_never_raises_witness :
    ((("Altres", "Resolts"), 0), (none : Option ℚ)) ∈ stacked_data_cat_pct dffZ ∧
    stackedGroupTotal dffZ "Altres" = 0 ∧
    ((("Altres", "Resolts"), 0), (none : Option ℚ)).2 = none :=
  ⟨by decide, by decide,
   ((pct_zero_total_never_raises dffZ).1 ((("Altres", "Resolts"), 0), none)
     (by decide)).1 (by decide)⟩

/-- C8: replaying the three filter steps (lines 54–57) and the `Categorie`
column assignment (line 253) over the object store leaves the loaded
table's object untouched: `df` still refers to the original table, with
every row and column unchanged.  (Boolean-mask indexing copies; only the
copy bound to `df_filtered` is mutated in place.) -/
theorem source_table_not_mutated (df : Table) (y1 y2 : Int) (canton : String)
    (sel : List String) :
    (runFilterAndCategorize df y1 y2 canton sel).heap.get?
      (runFilterAndCategorize df y1 y2 canton sel).dfRef = some df := by
  unfold runFilterAndCategorize
  dsimp only
  by_cases h : canton = "Tots"
  · rw [if_neg (by simp [h])]
    rfl
  · rw [if_pos h]
    rfl

theorem groupAgg_map_fst {α κ β : Type} [DecidableEq κ] (key : α → κ)
    (agg : List α → β) (l : List α) :
    (groupAgg key agg l).map Prod.fst = groupKeys key l := by
  unfold groupAgg
  rw [List.map_map]
  have hid : (Prod.fst ∘ fun k => (k, agg (groupRows key l k))) = (id : κ → κ) := rfl
  rw [hid, List.map_id]

theorem total_crimes_split (p : Row → Bool) (l : List Row) :
    total_crimes l =
      total_crimes (l.filter p) + total_crimes (l.filter (fun x => !(p x))) := by
  induction l with
  | nil => rfl
  | cons a t ih =>
    unfold total_crimes at *
    cases hpa : p a <;> simp [List.filter_cons, hpa, ih] <;> ring

/-- Example row at the country-aggregate canton value. -/
def rowS : Row :=
  ⟨2015, "Switzerland", "Vol simple", "Total de casos", 100, 3, 45, 85000, 26, 8000000⟩

/-- Example filtered view containing a `'Switzerland'` row. -/
def dffS : List Row := [rowS, rowZ]

/-- C10: rows whose canton is the country aggregate `'Switzerland'` are
excluded only from the per-canton-per-category bar chart aggregation
(lines 297–298); the KPI total, the map/time-series aggregation, the
scatter base, the temporal aggregation and the correlation base all include
them when they pass the active filters. -/
theorem switzerland_excluded_only_from_cantons_cat (dff : List Row) (r : Row)
    (hr : r ∈ dff) (hsw : r.Canto_norm = "Switzerland") :
    (∀ e ∈ cantons_cat dff, e.1.1 ≠ "Switzerland") ∧
    total_crimes dff =
      total_crimes (dff.filter (fun x => x.Canto_norm != "Switzerland")) +
        total_crimes (dff.filter (fun x => x.Canto_norm == "Switzerland")) ∧
    ("Switzerland", r.Any) ∈ (map_data dff).map Prod.fst ∧
    (r.Any, rowCategorie r) ∈ (temporal_data dff).map Prod.fst ∧
    (r.Nivell_de_Resolucio = "Total de casos" → r ∈ df_scatter dff) ∧
    "Switzerland" ∈ (corr_base dff).map Prod.fst := by
  refine ⟨?_, ?_, ?_, ?_, ?_, ?_⟩
  · intro e he
    unfold cantons_cat groupAgg at he
    obtain ⟨k, hk, rfl⟩ := List.mem_map.mp he
    have hk' := List.mem_dedup.mp hk
    obtain ⟨x, hx, rfl⟩ := List.mem_map.mp hk'
    have hxs := (List.mem_filter.mp hx).2
    simpa [bne] using hxs
  · have hsplit := total_crimes_split (fun x => x.Canto_norm != "Switzerland") dff
    have hfc : dff.filter (fun x => !(x.Canto_norm != "Switzerland")) =
        dff.filter (fun x => x.Canto_norm == "Switzerland") := by
      refine List.filter_congr ?_
      intro x _
      cases hx : x.Canto_norm == "Switzerland" <;> simp [bne, hx]
    rw [hfc] at hsplit
    exact hsplit
  · rw [map_data, groupAgg_map_fst, ← hsw]
    exact List.mem_dedup.mpr (List.mem_map_of_mem _ hr)
  · rw [temporal_data, groupAgg_map_fst]
    exact List.mem_dedup.mpr (List.mem_map_of_mem _ hr)
  · intro hlvl
    refine List.mem_filter.mpr ⟨hr, ?_⟩
    simp [df_scatter, hlvl]
  · rw [corr_base, groupAgg_map_fst, ← hsw]
    exact List.mem_dedup.mpr (List.mem_map_of_mem _ hr)

/-- Witness for C10 at a concrete table with a `'Switzerland'` row. -/
theorem switzerland_exclusion_witness :
    rowS ∈ dffS ∧ rowS.Canto_norm = "Switzerland" ∧
    ((∀ e ∈ cantons_cat dffS, e.1.1 ≠ "Switzerland") ∧
      total_crimes dffS =
        total_crimes (dffS.filter (fun x => x.Canto_norm != "Switzerland")) +
          total_crimes (dffS.filter (fun x => x.Canto_norm == "Switzerland")) ∧
      ("Switzerland", rowS.Any) ∈ (map_data dffS).map Prod.fst ∧
      (rowS.Any, rowCategorie rowS) ∈ (temporal_data dffS).map Prod.fst ∧
      (rowS.Nivell_de_Resolucio = "Total de casos" → rowS ∈ df_scatter dffS) ∧
      "Switzerland" ∈ (corr_base dffS).map Prod.fst) :=
  ⟨List.mem_cons_self rowS [rowZ], rfl,
   switzerland_excluded_only_from_cantons_cat dffS rowS
     (List.mem_cons_self rowS [rowZ]) rfl⟩
